import Mathlib

/-!
Shallow embedding of the IonoCraft discrete-time rigid-body dynamics model
from src/crazyflie_mpc/src/dynamics_ionocraft.py.  Python floats are embedded
as real numbers; the ambient numpy random source is embedded as an explicit
stream of standard-normal draws, a value drawn with standard deviation s being
s times the next element of the stream (np.random.normal with scale 0 returns
exactly 0, which the model reproduces).  The base class Dynamics and the
rotation helpers Q_IB, Q_BI, W_inv are imported by the source from a module
dynamics.py that is not part of the available sources; those pieces are
modelled from the spec and marked as such in their doc comments.
-/

namespace Iono

open Real

/-- Plain 3-component real vector used for body/world frame quantities. -/
structure V3 where
  vx : ℝ
  vy : ℝ
  vz : ℝ

/-- Result of the 6x4 mixing matrix applied to the 4 actuator commands, in the
source order T_tau_thrusters = [Tx, Ty, Tz, Tauz, Tauy, Taux]. -/
structure TTau where
  tx : ℝ
  ty : ℝ
  tz : ℝ
  tauz : ℝ
  tauy : ℝ
  taux : ℝ

/-- Immutable parameter set initialised by IonoCraft.__init__ (self.dt,
self.threeinput, self.m, self.L, self.Ixx, self.Iyy, self.Izz, self.angle,
self.x_noise, self.u_noise). -/
structure Model where
  dt : ℝ
  threeinput : Bool
  m : ℝ
  L : ℝ
  Ixx : ℝ
  Iyy : ℝ
  Izz : ℝ
  angle : ℝ
  x_noise : ℝ
  u_noise : ℝ

/-- Gravitational constant, self.g = 9.81 set in IonoCraft.__init__. -/
def Model.g (_ : Model) : ℝ := 9.81

/-- State dimension: len(_state_dict) = 15. -/
def Model.x_dim (_ : Model) : Nat := 15

/-- Input dimension: len(_input_dict), 3 in three-input mode and 4 otherwise. -/
def Model.u_dim (md : Model) : Nat := if md.threeinput then 3 else 4

/-- Equilibrium control self.u_e: [m*g, 0, 0] in three-input mode and
(m*g/4)*ones(4) in four-input mode. -/
noncomputable def Model.u_e (md : Model) : List ℝ :=
  if md.threeinput then [md.m * 9.81, 0, 0]
  else List.replicate 4 (md.m * 9.81 / 4)

/-- Error kinds of the model, per the spec's error-handling design. -/
inductive DynError where
  | InvalidParameterError
  | DimensionMismatchError
deriving DecidableEq

/-- Construction, IonoCraft.__init__.  The body visible in the source sets the
parameters with no validation of m, L, Ixx, Iyy, Izz or angle; the call
super().__init__(...) receives only the dictionaries, dt, the dimensions and
the noise standard deviations.  Modelled from the spec: the Dynamics base
class (missing dynamics.py) validates the positivity constraint on dt that it
receives and raises InvalidParameterError when it is violated; it cannot see
m or the inertia entries, which are never passed to it. -/
noncomputable def mkIonoCraft (dt : ℝ) (threeinput : Bool)
    (m L Ixx Iyy Izz angle x_noise u_noise : ℝ) : Except DynError Model :=
  if dt ≤ 0 then .error .InvalidParameterError
  else .ok ⟨dt, threeinput, m, L, Ixx, Iyy, Izz, angle, x_noise, u_noise⟩

/-- Component read x[i] on a vector embedded as a list (out-of-range reads
default to 0; all reads performed by the model are in range after the
dimension check). -/
def getv (x : List ℝ) (i : Nat) : ℝ := x.getD i 0

/-- Elementwise clip of np.clip: each value is raised to lowerbound and then
lowered to upperbound. -/
noncomputable def clip (lo hi v : ℝ) : ℝ := min (max lo v) hi

/-- IonoCraft._enforce_input_range: np.clip(input, 0, 500e-6) elementwise. -/
noncomputable def enforceInputRange (u : List ℝ) : List ℝ :=
  u.map (fun v => clip 0 (500e-6) v)

/-- Input-noise injection, u + u_noise_vec, where u_noise_vec is drawn as
np.random.normal(loc=0, scale=u_noise, size=u_dim): the draw with standard
deviation s is s times a standard-normal draw zu[i]. -/
noncomputable def noisedInput (md : Model) (u zu : List ℝ) : List ℝ :=
  (List.range md.u_dim).map (fun i => getv u i + md.u_noise * getv zu i)

/-- Three-input expansion of simulate:
u = (u[0]/4)*[1,1,1,1] + (u[1]*L/4)*[-1,-1,1,1] + (u[2]*L/4)*[-1,1,1,-1]. -/
noncomputable def expandThree (L : ℝ) (u : List ℝ) : List ℝ :=
  [getv u 0 / 4 * 1 + getv u 1 * L / 4 * (-1) + getv u 2 * L / 4 * (-1),
   getv u 0 / 4 * 1 + getv u 1 * L / 4 * (-1) + getv u 2 * L / 4 * 1,
   getv u 0 / 4 * 1 + getv u 1 * L / 4 * 1 + getv u 2 * L / 4 * 1,
   getv u 0 / 4 * 1 + getv u 1 * L / 4 * 1 + getv u 2 * L / 4 * (-1)]

/-- Four-component actuator command entering the input-range enforcement:
the three-input expansion in three-input mode, the (noised) input itself in
four-input mode. -/
noncomputable def actuatorCommand (md : Model) (u : List ℝ) : List ℝ :=
  if md.threeinput then expandThree md.L u else u

/-- Actuator command after clipping, as used by the wrench computation. -/
noncomputable def clippedCommand (md : Model) (u : List ℝ) : List ℝ :=
  enforceInputRange (actuatorCommand md u)

/-- Product np.matmul(self.force2thrust_torque(angle), u) of the 6x4 mixing
matrix of IonoCraft.force2thrust_torque with the clipped actuator command. -/
noncomputable def force2thrustTorqueApply (L angle : ℝ) (u : List ℝ) : TTau :=
  let s := Real.sin angle
  let c := Real.cos angle
  let u0 := getv u 0
  let u1 := getv u 1
  let u2 := getv u 2
  let u3 := getv u 3
  { tx := 0 * u0 + s * u1 + 0 * u2 + (-s) * u3
    ty := (-s) * u0 + 0 * u1 + s * u2 + 0 * u3
    tz := c * u0 + c * u1 + c * u2 + c * u3
    tauz := (-(L * s)) * u0 + L * s * u1 + (-(L * s)) * u2 + L * s * u3
    tauy := (-(L * c)) * u0 + (-(L * c)) * u1 + L * c * u2 + L * c * u3
    taux := L * c * u0 + (-(L * c)) * u1 + (-(L * c)) * u2 + L * c * u3 }

/-- Modelled from the spec: Q_BI, the body-to-world rotation matrix as a
function of the Euler angles (yaw, pitch, roll), applied to a vector.  The
function itself lives in the missing dynamics.py; the spec describes it as
the orientation-dependent rotation taking body-frame vectors to the world
frame, here the standard yaw-pitch-roll rotation Rz(yaw)*Ry(pitch)*Rx(roll). -/
noncomputable def qBI (ypr : V3) (v : V3) : V3 :=
  let cy := Real.cos ypr.vx
  let sy := Real.sin ypr.vx
  let cp := Real.cos ypr.vy
  let sp := Real.sin ypr.vy
  let cr := Real.cos ypr.vz
  let sr := Real.sin ypr.vz
  { vx := cy * cp * v.vx + (cy * sp * sr - sy * cr) * v.vy +
      (cy * sp * cr + sy * sr) * v.vz
    vy := sy * cp * v.vx + (sy * sp * sr + cy * cr) * v.vy +
      (sy * sp * cr - cy * sr) * v.vz
    vz := (-sp) * v.vx + cp * sr * v.vy + cp * cr * v.vz }

/-- Modelled from the spec: Q_IB, the world-to-body rotation, the transpose
of Q_BI, applied to a vector (missing dynamics.py). -/
noncomputable def qIB (ypr : V3) (v : V3) : V3 :=
  let cy := Real.cos ypr.vx
  let sy := Real.sin ypr.vx
  let cp := Real.cos ypr.vy
  let sp := Real.sin ypr.vy
  let cr := Real.cos ypr.vz
  let sr := Real.sin ypr.vz
  { vx := cy * cp * v.vx + sy * cp * v.vy + (-sp) * v.vz
    vy := (cy * sp * sr - sy * cr) * v.vx + (sy * sp * sr + cy * cr) * v.vy +
      cp * sr * v.vz
    vz := (cy * sp * cr + sy * sr) * v.vx + (sy * sp * cr - cy * sr) * v.vy +
      cp * cr * v.vz }

/-- Modelled from the spec: W_inv, the Euler-angle-rate transformation matrix
applied to the body angular velocity (missing dynamics.py; the same matrix
appears inline in IonoCraft.pqr2rpy, built from the first two components of
its angle argument, singular where the cosine of the second vanishes). -/
noncomputable def wInvApply (ypr : V3) (w : V3) : V3 :=
  let a := ypr.vx
  let b := ypr.vy
  { vx := 1 * w.vx + Real.sin a * Real.tan b * w.vy + Real.cos a * Real.tan b * w.vz
    vy := 0 * w.vx + Real.cos a * w.vy + (-Real.sin a) * w.vz
    vz := 0 * w.vx + Real.sin a / Real.cos b * w.vy + Real.cos a / Real.cos b * w.vz }

/-- Skew-symmetric cross-product matrix omega_mat of simulate applied to a
vector: omega_mat = [[0,-w2,w1],[w2,0,-w0],[-w1,w0,0]]. -/
noncomputable def skewApply (w v : V3) : V3 :=
  { vx := 0 * v.vx + (-w.vz) * v.vy + w.vy * v.vz
    vy := w.vz * v.vx + 0 * v.vy + (-w.vx) * v.vz
    vz := (-w.vy) * v.vx + w.vx * v.vy + 0 * v.vz }

/-- External force on the body, F_ext = Q_IB(ypr)@[0,0,m*g] - [Tx,Ty,Tz]. -/
noncomputable def fExt (md : Model) (ypr : V3) (tt : TTau) : V3 :=
  let gv := qIB ypr ⟨0, 0, md.m * 9.81⟩
  ⟨gv.vx - tt.tx, gv.vy - tt.ty, gv.vz - tt.tz⟩

/-- World-frame projection of the body thrust,
F_global = Q_BI(ypr)@T_tau_thrusters[0:3]. -/
noncomputable def fGlobal (ypr : V3) (tt : TTau) : V3 :=
  qBI ypr ⟨tt.tx, tt.ty, tt.tz⟩

/-- Acceleration bookkeeping of simulate: the last three state slots are
overwritten with [0,0,-g] + F_global/m, where F_global is recomputed from the
Euler angles and the clipped actuator command alone. -/
noncomputable def accelOutput (md : Model) (ypr : V3) (uc : List ℝ) : V3 :=
  let tt := force2thrustTorqueApply md.L md.angle uc
  let fg := fGlobal ypr tt
  ⟨0 + fg.vx / md.m, 0 + fg.vy / md.m, -9.81 + fg.vz / md.m⟩

/-- Derivative vector xdot of simulate: position derivative Q_BI(ypr)@v,
Euler-angle derivative W_inv(ypr)@w, linear-velocity derivative
(1/m)*F_ext - omega_mat@v, angular-velocity derivative
Ib_inv@Tau - Ib_inv@(omega_mat@(Ib@w)), and zeros in the acceleration slots
(xdot is allocated as np.zeros and the last three slots are never written). -/
noncomputable def xdotOf (md : Model) (x : List ℝ) (tt : TTau) : List ℝ :=
  let ypr : V3 := ⟨getv x 6, getv x 7, getv x 8⟩
  let v : V3 := ⟨getv x 3, getv x 4, getv x 5⟩
  let w : V3 := ⟨getv x 9, getv x 10, getv x 11⟩
  let pd := qBI ypr v
  let yd := wInvApply ypr w
  let fe := fExt md ypr tt
  let sv := skewApply w v
  let vd : V3 := ⟨1 / md.m * fe.vx - sv.vx, 1 / md.m * fe.vy - sv.vy,
    1 / md.m * fe.vz - sv.vz⟩
  let ibw : V3 := ⟨md.Ixx * w.vx, md.Iyy * w.vy, md.Izz * w.vz⟩
  let sw := skewApply w ibw
  let wd : V3 := ⟨tt.taux / md.Ixx - sw.vx / md.Ixx,
    tt.tauy / md.Iyy - sw.vy / md.Iyy, tt.tauz / md.Izz - sw.vz / md.Izz⟩
  [pd.vx, pd.vy, pd.vz, vd.vx, vd.vy, vd.vz, yd.vx, yd.vy, yd.vz,
   wd.vx, wd.vy, wd.vz, 0, 0, 0]

/-- Post-integration state before the numerical cleanup, built from the
clipped actuator command: x1 = x0 + dt*xdot + x_noise_vec on the twelve
dynamic slots and the overwritten acceleration in slots 12 to 14 (the noise
added there by the Euler step is discarded by the overwrite). -/
noncomputable def postStateCore (md : Model) (x uc zx : List ℝ) : List ℝ :=
  let tt := force2thrustTorqueApply md.L md.angle uc
  let ypr : V3 := ⟨getv x 6, getv x 7, getv x 8⟩
  let xd := xdotOf md x tt
  let acc := accelOutput md ypr uc
  [getv x 0 + md.dt * getv xd 0 + md.x_noise * getv zx 0,
   getv x 1 + md.dt * getv xd 1 + md.x_noise * getv zx 1,
   getv x 2 + md.dt * getv xd 2 + md.x_noise * getv zx 2,
   getv x 3 + md.dt * getv xd 3 + md.x_noise * getv zx 3,
   getv x 4 + md.dt * getv xd 4 + md.x_noise * getv zx 4,
   getv x 5 + md.dt * getv xd 5 + md.x_noise * getv zx 5,
   getv x 6 + md.dt * getv xd 6 + md.x_noise * getv zx 6,
   getv x 7 + md.dt * getv xd 7 + md.x_noise * getv zx 7,
   getv x 8 + md.dt * getv xd 8 + md.x_noise * getv zx 8,
   getv x 9 + md.dt * getv xd 9 + md.x_noise * getv zx 9,
   getv x 10 + md.dt * getv xd 10 + md.x_noise * getv zx 10,
   getv x 11 + md.dt * getv xd 11 + md.x_noise * getv zx 11,
   acc.vx, acc.vy, acc.vz]

/-- Post-integration state as a function of the raw input and the two noise
draws. -/
noncomputable def postState (md : Model) (x u zu zx : List ℝ) : List ℝ :=
  postStateCore md x (clippedCommand md (noisedInput md u zu)) zx

/-- Numerical cleanup of simulate, x1[np.abs(x1) < 1e-15] = 0 for one
component. -/
noncomputable def snap (v : ℝ) : ℝ := if |v| < 1e-15 then 0 else v

/-- IonoCraft.simulate.  Takes the current state x, the raw input u and the
random stream rng of standard-normal draws, and returns the result together
with the remaining stream.  Modelled from the spec: self._enforce_dimension
(missing dynamics.py base class) raises DimensionMismatchError before any
computation when the state length differs from x_dim = 15 or the input length
differs from u_dim; on that path the random source is never sampled, so the
stream is returned unconsumed.  Otherwise u_dim draws are consumed for the
input noise and x_dim = 15 draws for the process noise, and the cleaned-up
next state is returned. -/
noncomputable def simulate (md : Model) (x u rng : List ℝ) :
    Except DynError (List ℝ) × List ℝ :=
  if x.length = 15 ∧ u.length = md.u_dim then
    let zu := rng.take md.u_dim
    let r1 := rng.drop md.u_dim
    (.ok ((postState md x u zu (r1.take 15)).map snap), r1.drop 15)
  else (.error .DimensionMismatchError, rng)

/-- Concrete three-input model with zero noise and zero cant angle, used to
instantiate universally quantified theorems: dt = 1, m = L = Ixx = Iyy =
Izz = 1, angle = 0, x_noise = 0, u_noise = 0. -/
noncomputable def wModel : Model := ⟨1, true, 1, 1, 1, 1, 1, 0, 0, 0⟩

/-- Concrete four-input model with zero noise, otherwise as wModel. -/
noncomputable def wModel4 : Model := ⟨1, false, 1, 1, 1, 1, 1, 0, 0, 0⟩

/-- Concrete three-input model with the source's default mass 67e-6 and zero
noise and cant angle, whose equilibrium input survives the actuator clipping. -/
noncomputable def mC3 : Model := ⟨1 / 100, true, 67e-6, 1 / 100, 1, 1, 1, 0, 0, 0⟩

/-- All-zero 15-component state used to instantiate theorems. -/
noncomputable def xw : List ℝ := List.replicate 15 0

/-! Helper lemmas about the embedding. -/

/-- Successful path of simulate: when both dimension checks pass, the result
is the snapped post-integration state and the stream loses u_dim + 15 draws. -/
theorem simulate_ok (md : Model) (x u rng : List ℝ)
    (hx : x.length = 15) (hu : u.length = md.u_dim) :
    simulate md x u rng =
      (Except.ok ((postState md x u (rng.take md.u_dim)
        ((rng.drop md.u_dim).take 15)).map snap), (rng.drop md.u_dim).drop 15) := by
  unfold simulate
  rw [if_pos ⟨hx, hu⟩]

/-- Failing path of simulate: a dimension mismatch returns the error and the
unconsumed stream. -/
theorem simulate_err (md : Model) (x u rng : List ℝ)
    (h : ¬(x.length = 15 ∧ u.length = md.u_dim)) :
    simulate md x u rng = (.error .DimensionMismatchError, rng) := by
  unfold simulate
  rw [if_neg h]

/-- Snapping fixes values of magnitude at least the threshold. -/
theorem snap_of_large (v : ℝ) (h : (1e-15 : ℝ) ≤ |v|) : snap v = v := by
  unfold snap
  rw [if_neg (not_lt.mpr h)]

/-- Snapping sends values of magnitude below the threshold to zero. -/
theorem snap_of_small (v : ℝ) (h : |v| < (1e-15 : ℝ)) : snap v = 0 := by
  unfold snap
  rw [if_pos h]

/-- Snapping a snapped value of small magnitude yields zero. -/
theorem snap_eq_zero_of_abs_lt (v : ℝ) (h : |snap v| < (1e-15 : ℝ)) :
    snap v = 0 := by
  by_cases hv : |v| < (1e-15 : ℝ)
  · exact snap_of_small v hv
  · rw [snap_of_large v (not_lt.mp hv)] at h
    exact absurd h hv

/-- Componentwise description of the snapped state (snap 0 = 0 covers the
out-of-range default). -/
theorem getD_map_snap (l : List ℝ) (i : Nat) :
    (l.map snap).getD i 0 = snap (l.getD i 0) := by
  induction l generalizing i with
  | nil => simp [snap]
  | cons a t ih =>
    cases i with
    | zero => simp
    | succ n => simpa using ih n

/-- Reading any component of an all-zero state gives zero. -/
theorem getv_replicate_zero (n i : Nat) : getv (List.replicate n (0 : ℝ)) i = 0 := by
  induction n generalizing i with
  | zero => simp [getv]
  | succ k ih =>
    cases i with
    | zero => simp [getv, List.replicate_succ]
    | succ j =>
      rw [List.replicate_succ]
      exact ih j

/-! Claim theorems. -/

/-- C1 (amended): construction raises InvalidParameterError exactly when the
timestep dt is non-positive (the check modelled from the spec in the missing
Dynamics base class, the only positivity constraint whose operand the base
class receives); non-positive mass or inertia entries are accepted without
validation, the visible body of IonoCraft.__init__ performing no check. -/
theorem C1_construction_validation (dt : ℝ) (ti : Bool)
    (m L Ixx Iyy Izz angle xn un : ℝ) :
    (dt ≤ 0 →
      mkIonoCraft dt ti m L Ixx Iyy Izz angle xn un = .error .InvalidParameterError) ∧
    (0 < dt →
      mkIonoCraft dt ti m L Ixx Iyy Izz angle xn un =
        .ok ⟨dt, ti, m, L, Ixx, Iyy, Izz, angle, xn, un⟩) := by
  constructor
  · intro h
    unfold mkIonoCraft
    rw [if_pos h]
  · intro h
    unfold mkIonoCraft
    rw [if_neg (not_le.mpr h)]

/-- C1 witness: a model with dt = 1 and the default mass is constructed. -/
theorem C1_construction_validation_witness :
    mkIonoCraft 1 true (67e-6) (1 / 100) 1 1 1 0 0 0 =
      .ok ⟨1, true, 67e-6, 1 / 100, 1, 1, 1, 0, 0, 0⟩ :=
  (C1_construction_validation 1 true (67e-6) (1 / 100) 1 1 1 0 0 0).2 (by norm_num)

/-- C1 counterexample: construction with a negative mass (and a valid
timestep) succeeds, returning a model instead of raising
InvalidParameterError as the claim demands for every non-positive mass. -/
theorem C1_counterexample :
    mkIonoCraft (1 / 100) true (-1) (1 / 100) 1 1 1 0 (1 / 10000) 0 =
      .ok ⟨1 / 100, true, -1, 1 / 100, 1, 1, 1, 0, 1 / 10000, 0⟩ := by
  unfold mkIonoCraft
  rw [if_neg (by norm_num : ¬((1 : ℝ) / 100 ≤ 0))]

/-- C2: for every state vector of length other than 15 and every input vector
whose length does not match the configured mode, simulate raises
DimensionMismatchError and the random stream is returned unconsumed: the
check precedes all sampling and all numerical work. -/
theorem C2_dimension_mismatch (md : Model) (x u rng : List ℝ)
    (h : x.length ≠ 15 ∨ u.length ≠ md.u_dim) :
    simulate md x u rng = (.error .DimensionMismatchError, rng) := by
  apply simulate_err
  tauto

/-- C2 witness: an empty state vector is rejected and the stream [1, 2] comes
back untouched. -/
theorem C2_dimension_mismatch_witness :
    simulate wModel [] [] [1, 2] = (.error .DimensionMismatchError, [1, 2]) :=
  C2_dimension_mismatch wModel [] [] [1, 2] (Or.inl (by simp))

/-- With zero noise standard deviations the post-integration state does not
depend on the drawn noise streams. -/
theorem postState_noise_free (md : Model) (x u zu zx zu2 zx2 : List ℝ)
    (hx : md.x_noise = 0) (hu : md.u_noise = 0) :
    postState md x u zu zx = postState md x u zu2 zx2 := by
  simp [postState, postStateCore, noisedInput, hx, hu]

/-- C7: with both noise standard deviations zero, simulate is a deterministic
function of state and input: the returned state does not depend on the random
stream. -/
theorem C7_zero_noise_determinism (md : Model) (x u rng1 rng2 : List ℝ)
    (hx : md.x_noise = 0) (hu : md.u_noise = 0) :
    (simulate md x u rng1).1 = (simulate md x u rng2).1 := by
  by_cases h : x.length = 15 ∧ u.length = md.u_dim
  · rw [simulate_ok md x u rng1 h.1 h.2, simulate_ok md x u rng2 h.1 h.2]
    simp only
    rw [postState_noise_free md x u _ _ (rng2.take md.u_dim)
      ((rng2.drop md.u_dim).take 15) hx hu]
  · rw [simulate_err md x u rng1 h, simulate_err md x u rng2 h]

/-- C7 witness: two different streams give the same next state for the
zero-noise model. -/
theorem C7_zero_noise_determinism_witness :
    (simulate wModel xw [0, 0, 0] [1, 2, 3, 4, 5]).1 =
      (simulate wModel xw [0, 0, 0] []).1 :=
  C7_zero_noise_determinism wModel xw [0, 0, 0] [1, 2, 3, 4, 5] [] rfl rfl

/-- C6: every component of a returned state whose absolute value is below
1e-15 is exactly 0: the cleanup is applied to the whole post-integration
state, so no returned component has magnitude strictly between 0 and 1e-15. -/
theorem C6_cleanup_small_components (md : Model) (x u rng out : List ℝ)
    (h : (simulate md x u rng).1 = Except.ok out) (i : Nat)
    (hs : |out.getD i 0| < (1e-15 : ℝ)) : out.getD i 0 = 0 := by
  by_cases hc : x.length = 15 ∧ u.length = md.u_dim
  · rw [simulate_ok md x u rng hc.1 hc.2] at h
    have hout := (Except.ok.inj h).symm
    subst hout
    rw [getD_map_snap] at hs ⊢
    exact snap_eq_zero_of_abs_lt _ hs
  · rw [simulate_err md x u rng hc] at h
    exact absurd h (by simp)

/-- C10: the snapping threshold is strict: simulate returns the snapped
post-integration state, and a component of the post-integration state of
magnitude at least 1e-15 is returned unchanged. -/
theorem C10_snapping_strict (md : Model) (x u rng : List ℝ) (i : Nat)
    (hx : x.length = 15) (hu : u.length = md.u_dim)
    (hbig : (1e-15 : ℝ) ≤ |getv (postState md x u (rng.take md.u_dim)
      ((rng.drop md.u_dim).take 15)) i|) :
    (simulate md x u rng).1 =
      Except.ok ((postState md x u (rng.take md.u_dim)
        ((rng.drop md.u_dim).take 15)).map snap) ∧
    getv ((postState md x u (rng.take md.u_dim)
        ((rng.drop md.u_dim).take 15)).map snap) i =
      getv (postState md x u (rng.take md.u_dim)
        ((rng.drop md.u_dim).take 15)) i := by
  refine ⟨by rw [simulate_ok md x u rng hx hu], ?_⟩
  unfold getv at hbig ⊢
  rw [getD_map_snap]
  exact snap_of_large _ hbig

/-- C5: actuator commands are clamped into [0, 500e-6] before the wrench
computation: a value below 0 clips to 0 and a value above 500e-6 clips to
500e-6; consequently, with zero input noise in four-input mode, the input at
10 times the upper bound produces exactly the state produced by the input at
the bound. -/
theorem C5_actuator_clipping (md : Model) (x rng : List ℝ) (v : ℝ)
    (hu : md.u_noise = 0) (hm : md.threeinput = false) :
    (v ≤ 0 → clip 0 (500e-6) v = 0) ∧
    ((500e-6 : ℝ) ≤ v → clip 0 (500e-6) v = 500e-6) ∧
    simulate md x (List.replicate 4 (10 * (500e-6 : ℝ))) rng =
      simulate md x (List.replicate 4 (500e-6 : ℝ)) rng := by
  refine ⟨?_, ?_, ?_⟩
  · intro h
    unfold clip
    rw [max_eq_left h, min_eq_left (by norm_num)]
  · intro h
    unfold clip
    rw [max_eq_right (le_trans (by norm_num) h), min_eq_right h]
  · have hdim : md.u_dim = 4 := by simp [Model.u_dim, hm]
    have hlen1 : (List.replicate 4 (10 * (500e-6 : ℝ))).length = md.u_dim := by
      simp [hdim]
    have hlen2 : (List.replicate 4 (500e-6 : ℝ)).length = md.u_dim := by
      simp [hdim]
    by_cases hxl : x.length = 15
    · rw [simulate_ok md x _ rng hxl hlen1, simulate_ok md x _ rng hxl hlen2]
      have hcc : clippedCommand md (noisedInput md
          (List.replicate 4 (10 * (500e-6 : ℝ))) (rng.take md.u_dim)) =
          clippedCommand md (noisedInput md
          (List.replicate 4 (500e-6 : ℝ)) (rng.take md.u_dim)) := by
        have hn1 : noisedInput md (List.replicate 4 (10 * (500e-6 : ℝ)))
            (rng.take md.u_dim) = List.replicate 4 (10 * (500e-6 : ℝ)) := by
          simp [noisedInput, hdim, hu]
          rfl
        have hn2 : noisedInput md (List.replicate 4 (500e-6 : ℝ))
            (rng.take md.u_dim) = List.replicate 4 (500e-6 : ℝ) := by
          simp [noisedInput, hdim, hu]
          rfl
        rw [hn1, hn2]
        unfold clippedCommand actuatorCommand
        rw [hm]
        simp only [Bool.false_eq_true, if_false]
        unfold enforceInputRange clip
        norm_num
      unfold postState
      rw [hcc]
    · rw [simulate_err md x _ rng (fun hc => hxl hc.1),
        simulate_err md x _ rng (fun hc => hxl hc.1)]

/-- C5 witness: the clipping facts and the saturation equality at the
concrete four-input zero-noise model. -/
theorem C5_actuator_clipping_witness :
    ((-1 : ℝ) ≤ 0 → clip 0 (500e-6) (-1) = 0) ∧
    ((500e-6 : ℝ) ≤ (-1 : ℝ) → clip 0 (500e-6) (-1) = 500e-6) ∧
    simulate wModel4 xw (List.replicate 4 (10 * (500e-6 : ℝ))) [] =
      simulate wModel4 xw (List.replicate 4 (500e-6 : ℝ)) [] :=
  C5_actuator_clipping wModel4 xw [] (-1) rfl rfl

/-- C4: in three-input mode the four-component actuator command entering the
wrench computation is the fixed linear combination of the hover mixing
vectors, and a pure-collective command (T, 0, 0) with zero input noise
expands to four equal actuator commands of T/4. -/
theorem C4_three_input_expansion (md : Model) (u zu : List ℝ) (T : ℝ)
    (h3 : md.threeinput = true) (hn : md.u_noise = 0) :
    actuatorCommand md u =
      [getv u 0 / 4 * 1 + getv u 1 * md.L / 4 * (-1) + getv u 2 * md.L / 4 * (-1),
       getv u 0 / 4 * 1 + getv u 1 * md.L / 4 * (-1) + getv u 2 * md.L / 4 * 1,
       getv u 0 / 4 * 1 + getv u 1 * md.L / 4 * 1 + getv u 2 * md.L / 4 * 1,
       getv u 0 / 4 * 1 + getv u 1 * md.L / 4 * 1 + getv u 2 * md.L / 4 * (-1)] ∧
    actuatorCommand md (noisedInput md [T, 0, 0] zu) = [T / 4, T / 4, T / 4, T / 4] := by
  constructor
  · unfold actuatorCommand
    rw [h3]
    simp only [if_true]
    rfl
  · have hni : noisedInput md [T, 0, 0] zu = [T, 0, 0] := by
      unfold noisedInput
      rw [show md.u_dim = 3 by simp [Model.u_dim, h3], hn]
      simp only [zero_mul, add_zero]
      rfl
    rw [hni]
    unfold actuatorCommand
    rw [h3]
    simp only [if_true]
    unfold expandThree
    unfold getv
    norm_num

/-- C4 witness: the expansion formula at u = [1, 2, 3] and the T/4 collective
expansion at T = 7 for the concrete model. -/
theorem C4_three_input_expansion_witness :
    actuatorCommand wModel [1, 2, 3] =
      [getv [1, 2, 3] 0 / 4 * 1 + getv [1, 2, 3] 1 * wModel.L / 4 * (-1) +
        getv [1, 2, 3] 2 * wModel.L / 4 * (-1),
       getv [1, 2, 3] 0 / 4 * 1 + getv [1, 2, 3] 1 * wModel.L / 4 * (-1) +
        getv [1, 2, 3] 2 * wModel.L / 4 * 1,
       getv [1, 2, 3] 0 / 4 * 1 + getv [1, 2, 3] 1 * wModel.L / 4 * 1 +
        getv [1, 2, 3] 2 * wModel.L / 4 * 1,
       getv [1, 2, 3] 0 / 4 * 1 + getv [1, 2, 3] 1 * wModel.L / 4 * 1 +
        getv [1, 2, 3] 2 * wModel.L / 4 * (-1)] ∧
    actuatorCommand wModel (noisedInput wModel [7, 0, 0] [5]) =
      [7 / 4, 7 / 4, 7 / 4, 7 / 4] :=
  C4_three_input_expansion wModel [1, 2, 3] [5] 7 rfl rfl

/-- Reading a component of the all-zero replicate list as getD gives zero. -/
theorem getD_replicate_zero (n i : Nat) :
    (List.replicate n (0 : ℝ)).getD i 0 = 0 :=
  getv_replicate_zero n i

/-- Concrete evaluation: the pre-snap post-integration state of the wModel
run from the zero state with zero input (gravity pulls: vz picks up g*dt and
the measured acceleration is pure gravity). -/
theorem wModel_post :
    postState wModel xw [0, 0, 0] [] [] =
      [0, 0, 0, 0, 0, 9.81, 0, 0, 0, 0, 0, 0, 0, 0, -9.81] := by
  simp only [postState, postStateCore, clippedCommand, actuatorCommand,
    noisedInput, enforceInputRange, expandThree, force2thrustTorqueApply,
    accelOutput, fGlobal, fExt, xdotOf, qBI, qIB, wInvApply, skewApply, clip,
    wModel, xw, Model.u_dim]
  norm_num [getv, getD_replicate_zero, Real.sin_zero, Real.cos_zero,
    Real.tan_zero, min_def, max_def]

/-- Concrete evaluation: the full simulate result for the wModel run. -/
theorem wModel_eval :
    (simulate wModel xw [0, 0, 0] []).1 =
      Except.ok [0, 0, 0, 0, 0, 9.81, 0, 0, 0, 0, 0, 0, 0, 0, -9.81] := by
  rw [simulate_ok wModel xw [0, 0, 0] [] (by simp [xw]) rfl]
  simp only [List.take_nil, List.drop_nil]
  rw [wModel_post]
  simp only [List.map_cons, List.map_nil]
  norm_num [snap, abs_of_nonneg, abs_neg]

/-- C6 witness: the first component of the concrete run has magnitude below
1e-15 and is exactly 0. -/
theorem C6_cleanup_small_components_witness :
    |([0, 0, 0, 0, 0, 9.81, 0, 0, 0, 0, 0, 0, 0, 0, -9.81] : List ℝ).getD 0 0| <
      (1e-15 : ℝ) ∧
    ([0, 0, 0, 0, 0, 9.81, 0, 0, 0, 0, 0, 0, 0, 0, -9.81] : List ℝ).getD 0 0 = 0 :=
  ⟨by norm_num,
    C6_cleanup_small_components wModel xw [0, 0, 0] [] _ wModel_eval 0 (by norm_num)⟩

/-- C10 witness: the component of magnitude 9.81 survives the snapping
unchanged in the concrete run. -/
theorem C10_snapping_strict_witness :
    (simulate wModel xw [0, 0, 0] []).1 =
      Except.ok ((postState wModel xw [0, 0, 0] (List.take wModel.u_dim [])
        ((List.drop wModel.u_dim []).take 15)).map snap) ∧
    getv ((postState wModel xw [0, 0, 0] (List.take wModel.u_dim [])
        ((List.drop wModel.u_dim []).take 15)).map snap) 14 =
      getv (postState wModel xw [0, 0, 0] (List.take wModel.u_dim [])
        ((List.drop wModel.u_dim []).take 15)) 14 :=
  C10_snapping_strict wModel xw [0, 0, 0] [] 14 (by simp [xw]) rfl
    (by
      simp only [List.take_nil, List.drop_nil]
      rw [wModel_post]
      norm_num [getv, abs_neg, abs_of_nonneg])

/-- C8: the last three components of every returned state are the snapped
instantaneous acceleration [0, 0, -g] + worldFrameThrust/m, a function of the
incoming Euler angles (components 6 to 8) and the clipped actuator command
only: the integrated and noised values in those slots are overwritten, so the
result does not depend on the incoming acceleration components or on the
process-noise draws. -/
theorem C8_acceleration_overwrite (md : Model) (x u rng out : List ℝ)
    (h : (simulate md x u rng).1 = Except.ok out) :
    getv out 12 = snap ((accelOutput md ⟨getv x 6, getv x 7, getv x 8⟩
      (clippedCommand md (noisedInput md u (rng.take md.u_dim)))).vx) ∧
    getv out 13 = snap ((accelOutput md ⟨getv x 6, getv x 7, getv x 8⟩
      (clippedCommand md (noisedInput md u (rng.take md.u_dim)))).vy) ∧
    getv out 14 = snap ((accelOutput md ⟨getv x 6, getv x 7, getv x 8⟩
      (clippedCommand md (noisedInput md u (rng.take md.u_dim)))).vz) := by
  by_cases hc : x.length = 15 ∧ u.length = md.u_dim
  · rw [simulate_ok md x u rng hc.1 hc.2] at h
    have hout := (Except.ok.inj h).symm
    subst hout
    unfold getv
    rw [getD_map_snap, getD_map_snap, getD_map_snap]
    refine ⟨?_, ?_, ?_⟩ <;> rfl
  · rw [simulate_err md x u rng hc] at h
    exact absurd h (by simp)

/-- C8 witness: the acceleration components of the concrete run equal the
snapped instantaneous acceleration (0, 0, -9.81). -/
theorem C8_acceleration_overwrite_witness :
    getv [0, 0, 0, 0, 0, 9.81, 0, 0, 0, 0, 0, 0, 0, 0, -9.81] 12 =
      snap ((accelOutput wModel ⟨getv xw 6, getv xw 7, getv xw 8⟩
        (clippedCommand wModel (noisedInput wModel [0, 0, 0]
          (List.take wModel.u_dim [])))).vx) ∧
    getv [0, 0, 0, 0, 0, 9.81, 0, 0, 0, 0, 0, 0, 0, 0, -9.81] 13 =
      snap ((accelOutput wModel ⟨getv xw 6, getv xw 7, getv xw 8⟩
        (clippedCommand wModel (noisedInput wModel [0, 0, 0]
          (List.take wModel.u_dim [])))).vy) ∧
    getv [0, 0, 0, 0, 0, 9.81, 0, 0, 0, 0, 0, 0, 0, 0, -9.81] 14 =
      snap ((accelOutput wModel ⟨getv xw 6, getv xw 7, getv xw 8⟩
        (clippedCommand wModel (noisedInput wModel [0, 0, 0]
          (List.take wModel.u_dim [])))).vz) :=
  C8_acceleration_overwrite wModel xw [0, 0, 0] [] _ wModel_eval

/-- Length of the equilibrium input always matches the configured input
dimension, in either mode. -/
theorem u_e_length (md : Model) : md.u_e.length = md.u_dim := by
  unfold Model.u_e Model.u_dim
  cases md.threeinput <;> simp

/-- Equilibrium evaluation of the pre-snap post-integration state: with zero
noise and zero cant angle, in either input mode, when the per-actuator trim
thrust m*g/4 lies inside the clip range [0, 500e-6] (so clipping leaves the
equilibrium command unchanged), starting from zero velocity, orientation and
angular velocity, the trim input holds every dynamic derivative at zero; only
the measured-acceleration slot keeps the residual -g + m*g/m. -/
theorem postState_equilibrium (md : Model) (p0 p1 p2 a0 a1 a2 : ℝ)
    (zu zx : List ℝ) (hxn : md.x_noise = 0) (hun : md.u_noise = 0)
    (hang : md.angle = 0) (hlo : (0 : ℝ) ≤ md.m * 9.81 / 4)
    (hhi : md.m * 9.81 / 4 ≤ 500e-6) :
    postState md [p0, p1, p2, 0, 0, 0, 0, 0, 0, 0, 0, 0, a0, a1, a2]
        md.u_e zu zx =
      [p0, p1, p2, 0, 0, 0, 0, 0, 0, 0, 0, 0, 0, 0,
        -9.81 + md.m * 9.81 / md.m] := by
  have hclip : clippedCommand md (noisedInput md md.u_e zu) =
      [md.m * 9.81 / 4, md.m * 9.81 / 4, md.m * 9.81 / 4, md.m * 9.81 / 4] := by
    cases hmode : md.threeinput with
    | false =>
      have hni : noisedInput md md.u_e zu =
          [md.m * 9.81 / 4, md.m * 9.81 / 4, md.m * 9.81 / 4,
            md.m * 9.81 / 4] := by
        unfold noisedInput
        rw [show md.u_dim = 4 by simp [Model.u_dim, hmode], hun,
          show md.u_e = List.replicate 4 (md.m * 9.81 / 4) by
            simp [Model.u_e, hmode]]
        simp only [zero_mul, add_zero]
        rfl
      rw [hni]
      unfold clippedCommand actuatorCommand
      rw [hmode]
      simp only [Bool.false_eq_true, if_false]
      unfold enforceInputRange clip
      simp only [List.map_cons, List.map_nil]
      rw [max_eq_right hlo, min_eq_left hhi]
    | true =>
      have hni : noisedInput md md.u_e zu = [md.m * 9.81, 0, 0] := by
        unfold noisedInput
        rw [show md.u_dim = 3 by simp [Model.u_dim, hmode], hun,
          show md.u_e = [md.m * 9.81, 0, 0] by simp [Model.u_e, hmode]]
        simp only [zero_mul, add_zero]
        rfl
      rw [hni]
      unfold clippedCommand actuatorCommand
      rw [hmode]
      simp only [if_true]
      unfold enforceInputRange expandThree clip getv
      simp only [List.map_cons, List.map_nil, List.getD_cons_zero,
        List.getD_cons_succ]
      have he : md.m * 9.81 / 4 * 1 + 0 * md.L / 4 * (-1) + 0 * md.L / 4 * (-1) =
          md.m * 9.81 / 4 := by ring
      have he2 : md.m * 9.81 / 4 * 1 + 0 * md.L / 4 * (-1) + 0 * md.L / 4 * 1 =
          md.m * 9.81 / 4 := by ring
      have he3 : md.m * 9.81 / 4 * 1 + 0 * md.L / 4 * 1 + 0 * md.L / 4 * 1 =
          md.m * 9.81 / 4 := by ring
      have he4 : md.m * 9.81 / 4 * 1 + 0 * md.L / 4 * 1 + 0 * md.L / 4 * (-1) =
          md.m * 9.81 / 4 := by ring
      rw [he, he2, he3, he4, max_eq_right hlo, min_eq_left hhi]
  unfold postState
  rw [hclip]
  unfold postStateCore xdotOf accelOutput fGlobal fExt force2thrustTorqueApply
    qBI qIB wInvApply skewApply
  rw [hang, hxn]
  simp only [Real.sin_zero, Real.cos_zero, Real.tan_zero]
  norm_num [getv]
  constructor
  · exact Or.inr (Or.inr (by ring))
  · ring

/-- Concrete evaluation: the pre-snap post-integration state of the heavy
wModel (m = 1) run from the zero state with its own equilibrium input: the
trim thrust 9.81/4 per actuator saturates at the clip bound 500e-6, so the
net external force no longer vanishes and vz picks up 9.81 - 4*500e-6. -/
theorem wModel_trim_post :
    postState wModel xw wModel.u_e [] [] =
      [0, 0, 0, 0, 0, 9.808, 0, 0, 0, 0, 0, 0, 0, 0, -9.808] := by
  simp only [postState, postStateCore, clippedCommand, actuatorCommand,
    noisedInput, enforceInputRange, expandThree, force2thrustTorqueApply,
    accelOutput, fGlobal, fExt, xdotOf, qBI, qIB, wInvApply, skewApply, clip,
    wModel, xw, Model.u_dim, Model.u_e]
  norm_num [getv, getD_replicate_zero, Real.sin_zero, Real.cos_zero,
    Real.tan_zero, min_def, max_def]

/-- Concrete evaluation: the full simulate result of the heavy wModel run
under its own equilibrium input: the returned linear velocity vz is 9.808,
not 0, because the trim command was clipped. -/
theorem wModel_trim_eval :
    (simulate wModel xw wModel.u_e []).1 =
      Except.ok [0, 0, 0, 0, 0, 9.808, 0, 0, 0, 0, 0, 0, 0, 0, -9.808] := by
  rw [simulate_ok wModel xw wModel.u_e [] (by simp [xw]) (u_e_length wModel)]
  simp only [List.take_nil, List.drop_nil]
  rw [wModel_trim_post]
  simp only [List.map_cons, List.map_nil]
  norm_num [snap, abs_of_nonneg, abs_neg]

/-- C3 (amended): for every model with both noise standard deviations 0 and
cant angle 0 (in either input mode) whose per-actuator trim thrust m*g/4 lies
inside the actuator clip range [0, 500e-6] (so that clipping leaves u_e
unchanged), starting from zero velocity, orientation and angular velocity,
applying u_e yields a next state with zero linear velocity, orientation and
angular velocity, and with each position component equal to its snapped
value: unchanged when it is 0 or of magnitude at least 1e-15, and set to
exactly 0 otherwise.  Snapping is idempotent, so repeated application keeps
the positions constant from the first step on. -/
theorem C3_hover_equilibrium (md : Model) (p0 p1 p2 a0 a1 a2 : ℝ)
    (rng : List ℝ) (hxn : md.x_noise = 0) (hun : md.u_noise = 0)
    (hang : md.angle = 0) (hlo : (0 : ℝ) ≤ md.m * 9.81 / 4)
    (hhi : md.m * 9.81 / 4 ≤ 500e-6) :
    (∃ b0 b1 b2 : ℝ,
      (simulate md [p0, p1, p2, 0, 0, 0, 0, 0, 0, 0, 0, 0, a0, a1, a2]
          md.u_e rng).1 =
        Except.ok [snap p0, snap p1, snap p2, 0, 0, 0, 0, 0, 0, 0, 0, 0,
          b0, b1, b2]) ∧
    ∀ q : ℝ, snap (snap q) = snap q := by
  constructor
  · refine ⟨0, 0, snap (-9.81 + md.m * 9.81 / md.m), ?_⟩
    rw [simulate_ok _ _ _ _ (by norm_num) (u_e_length md)]
    rw [postState_equilibrium md p0 p1 p2 a0 a1 a2 _ _ hxn hun hang hlo hhi]
    simp only [List.map_cons, List.map_nil]
    have s0 : snap 0 = 0 := by norm_num [snap]
    simp only [s0]
  · intro q
    by_cases hq : |q| < (1e-15 : ℝ)
    · rw [snap_of_small q hq]
      norm_num [snap]
    · rw [snap_of_large q (not_lt.mp hq)]
      exact snap_of_large q (not_lt.mp hq)

/-- C3 witness: the default-mass model mC3 satisfies every hypothesis and
holds position (1, 0, 0) at its snapped value with zero velocity. -/
theorem C3_hover_equilibrium_witness :
    (∃ b0 b1 b2 : ℝ,
      (simulate mC3 [1, 0, 0, 0, 0, 0, 0, 0, 0, 0, 0, 0, 0, 0, 0]
          mC3.u_e []).1 =
        Except.ok [snap 1, snap 0, snap 0, 0, 0, 0, 0, 0, 0, 0, 0, 0,
          b0, b1, b2]) ∧
    ∀ q : ℝ, snap (snap q) = snap q :=
  C3_hover_equilibrium mC3 1 0 0 0 0 0 [] rfl rfl rfl (by norm_num [mC3])
    (by norm_num [mC3])

/-- C3 counterexample, both failures of the claim as stated at concrete
inputs.  First, the numerical cleanup moves positions: from a state with
zero velocity, orientation and angular velocity but position x = 1e-16, one
equilibrium step of the default-mass zero-noise zero-cant model returns
position exactly 0, not 1e-16.  Second, the claimed zero velocity fails for
a heavier model in the claim's stated domain (zero noise, zero cant angle):
for m = 1 the trim thrust 9.81/4 per actuator exceeds the clip bound 500e-6,
the command saturates, and the returned vz is 9.808, not 0. -/
theorem C3_counterexample :
    ((simulate mC3 [1e-16, 0, 0, 0, 0, 0, 0, 0, 0, 0, 0, 0, 0, 0, 0]
        mC3.u_e []).1 =
      Except.ok [0, 0, 0, 0, 0, 0, 0, 0, 0, 0, 0, 0, 0, 0, 0] ∧
      (1e-16 : ℝ) ≠ 0) ∧
    ((simulate wModel xw wModel.u_e []).1 =
      Except.ok [0, 0, 0, 0, 0, 9.808, 0, 0, 0, 0, 0, 0, 0, 0, -9.808] ∧
      (9.808 : ℝ) ≠ 0) := by
  refine ⟨⟨?_, by norm_num⟩, ⟨wModel_trim_eval, by norm_num⟩⟩
  rw [simulate_ok _ _ _ _ (by norm_num) (u_e_length mC3)]
  simp only [List.take_nil, List.drop_nil]
  rw [postState_equilibrium mC3 (1e-16) 0 0 0 0 0 [] [] rfl rfl rfl
    (by norm_num [mC3]) (by norm_num [mC3])]
  simp only [List.map_cons, List.map_nil]
  norm_num [snap, abs_of_nonneg, mC3]

end Iono
